import Mathlib

/-!
Verification development for the ME Telegram-bot repository.

The repository contains three bot variants:
* `src/bot.py`        — a small Flask bot (namespace `BotPy` below);
* `src/BOT/bot.py`    — a FastAPI market-data bot (namespace `BOTPy`);
* `src/bot/bot.py`    — a large Flask bot with JSON-file storage, an admin
  request system and the "DNA" telemetry object (namespace `BigBot`).

Python strings that are manipulated (upper-casing, strip, replace, slicing)
are modelled as `List Char`; strings that are only stored or compared are
modelled as Lean `String`.  Fallible request processing is modelled with
`Except`.  Python float arithmetic in the DNA fitness computation is modelled
with exact rationals.
-/

/-! ### Python string primitives -/

/-- Lower-case ASCII letter test, as used by Python `str.upper` on the ASCII
range (`'a'` = 97 … `'z'` = 122). -/
def isLowerCh (c : Char) : Bool := 97 ≤ c.toNat && c.toNat ≤ 122

/-- Upper-casing of a single character on the ASCII range, the effect of
Python `str.upper` on each character handled by this repository. -/
def charUpper (c : Char) : Char :=
  if isLowerCh c then Char.ofNat (c.toNat - 32) else c

/-- Python `s.upper()`. -/
def pyUpper (l : List Char) : List Char := l.map charUpper

/-- Python `s.replace(c, "")` for a single-character pattern: removes every
occurrence of `c`. -/
def removeChar (c : Char) (l : List Char) : List Char := l.filter (fun x => x != c)

/-- Python whitespace characters removed by `str.strip()`. -/
def isPySpace (c : Char) : Bool :=
  c = ' ' || c = '\t' || c = '\n' || c = '\r' || c = '\x0b' || c = '\x0c'

/-- Python `s.strip()`: drop leading whitespace, then trailing whitespace. -/
def pyStrip (l : List Char) : List Char :=
  List.rdropWhile isPySpace (l.dropWhile isPySpace)

/-! ### `normalize_symbol_for_exchange` (src/BOT/bot.py, lines 53-61) -/

namespace BOTPy

/-- Embedding of `normalize_symbol_for_exchange` from `src/BOT/bot.py`:

```
s = symbol.upper().replace("-", "").replace("_", "")
if "/" in symbol: return symbol.upper()
if s.endswith("USDT"): return s[:-4] + "/USDT"
if s.endswith("USD"): return s[:-3] + "/USD"
return symbol.upper()
``` -/
def normalize_symbol_for_exchange (symbol : List Char) : List Char :=
  let s := removeChar '_' (removeChar '-' (pyUpper symbol))
  if '/' ∈ symbol then pyUpper symbol
  else if "USDT".data <:+ s then s.take (s.length - 4) ++ "/USDT".data
  else if "USD".data <:+ s then s.take (s.length - 3) ++ "/USD".data
  else pyUpper symbol

/-- The local variable `s` of `normalize_symbol_for_exchange`:
`symbol.upper().replace("-", "").replace("_", "")`. -/
def upper_stripped (symbol : List Char) : List Char :=
  removeChar '_' (removeChar '-' (pyUpper symbol))

end BOTPy

/-! ### HTTP response model -/

/-- JSON values, for modelling `jsonify` / `JSONResponse` bodies. -/
inductive Json where
  | str : String → Json
  | int : Int → Json
  | rat : ℚ → Json
  | bool : Bool → Json
  | null : Json
  | arr : List Json → Json
  | obj : List (String × Json) → Json

/-- An HTTP response body: either plain text (Flask string returns and
`abort` pages) or a JSON object with named top-level fields. -/
inductive HttpBody where
  | text : String → HttpBody
  | json : List (String × Json) → HttpBody

/-- Whether a response body is a JSON object containing the given top-level
field. -/
def HttpBody.hasField : HttpBody → String → Bool
  | .text _, _ => false
  | .json fs, k => fs.any (fun p => p.1 == k)

/-- An HTTP response: body plus status code. -/
structure HttpResult where
  body : HttpBody
  status : Nat

/-! ### src/bot.py — small Flask bot -/

namespace BotPy

/-- The parts of a Telegram message used by `src/bot.py`
(`message.chat.id`, `message.message_id`, `message.text`). -/
structure TgMessage where
  chat_id : Int
  message_id : Nat
  text : Option String

/-- A Telegram update as used by `src/bot.py`: it may carry a message. -/
structure TgUpdate where
  update_id : Nat
  message : Option TgMessage

/-- Outbound Telegram API effects performed by the handlers. -/
inductive BotAction where
  | sendMessage (chat_id : Int) (text : String)
deriving DecidableEq

/-- The filter of the sole registered message handler:
`@bot.message_handler(func=lambda m: True)`. -/
def handler_filter (_ : TgMessage) : Bool := true

/-- Embedding of `handle_all_messages` (src/bot.py lines 35-45): reply with
`"קיבלתי: <text>"` when `message.text` is truthy, a fixed acknowledgement
otherwise, sent via `bot.send_message(message.chat.id, reply)`. -/
def handle_all_messages (m : TgMessage) : List BotAction :=
  let reply :=
    match m.text with
    | some t => if t ≠ "" then "קיבלתי: " ++ t else "קיבלתי את ההודעה שלך — תודה!"
    | none => "קיבלתי את ההודעה שלך — תודה!"
  [BotAction.sendMessage m.chat_id reply]

/-- Model of telebot's `bot.process_new_updates([update])` dispatch: a message
update is routed to the registered message handler whose filter accepts it. -/
def process_new_updates (u : TgUpdate) : List BotAction :=
  match u.message with
  | some m => if handler_filter m then handle_all_messages m else []
  | none => []

/-- An incoming webhook POST as seen by the Flask handler: the
`request.is_json` flag and the result of reading and decoding the body
(`Except.error` models an exception raised while constructing or dispatching
the update inside the `try` block). -/
structure WebhookRequest where
  is_json : Bool
  parsed : Except String TgUpdate

/-- Embedding of the `webhook` route of `src/bot.py` (lines 48-67).
`cfgSecret` is the configured `WEBHOOK_SECRET`, `urlSecret` the `<secret>`
path segment.  Returns the HTTP response together with the dispatched bot
actions (empty when nothing is dispatched). -/
def webhook (cfgSecret urlSecret : String) (req : WebhookRequest) :
    HttpResult × List BotAction :=
  if urlSecret ≠ cfgSecret then
    ({ body := .text "Forbidden", status := 403 }, [])
  else if ¬ req.is_json then
    ({ body := .text "Bad Request", status := 400 }, [])
  else
    match req.parsed with
    | .error _ => ({ body := .text "OK", status := 200 }, [])
    | .ok u => ({ body := .text "OK", status := 200 }, process_new_updates u)

/-- The `/health` route of `src/bot.py` (lines 70-72): `return "ok", 200`. -/
def health : HttpResult := { body := .text "ok", status := 200 }

/-- The `/healthz` route of `src/bot.py` (lines 74-76):
`return jsonify(status="ok"), 200`. -/
def healthz : HttpResult :=
  { body := .json [("status", Json.str "ok")], status := 200 }

end BotPy

namespace BOTPy

/-- Python `s.rstrip('/')`, used for `WEBHOOK_URL.rstrip('/')`. -/
def rstripSlash (s : String) : String :=
  ⟨List.rdropWhile (fun c => c = '/') s.data⟩

/-- Embedding of the `/health` route of `src/BOT/bot.py` (lines 388-397):
a `JSONResponse` (status 200) with `status`, `service`, `webhook` and `time`
fields; `status` is `"ready"` when the readiness flag `_ready` is set and
`"starting"` otherwise. -/
def health (ready : Bool) (webhook_url token time_str : String) : HttpResult :=
  { body := .json [
      ("status", Json.str (if ready then "ready" else "starting")),
      ("service", Json.str "SLH PROMO investors bot"),
      ("webhook", Json.str (rstripSlash webhook_url ++ "/" ++ token)),
      ("time", Json.str time_str)],
    status := 200 }

end BOTPy

/-! ### src/bot/bot.py — large Flask bot -/

namespace BigBot

/-- Outcome of the `try` block of the `/webhook` route (src/bot/bot.py lines
6093-6109): `request.get_json()`, `Update.de_json` and
`dispatcher.process_update(update)` either succeed (`return 'OK', 200`) or
raise (`return 'Error', 500`). -/
def webhook_process (proc : Except String Unit) : HttpResult :=
  match proc with
  | .error _ => { body := .text "Error", status := 500 }
  | .ok _ => { body := .text "OK", status := 200 }

/-- Embedding of the `/webhook` route of `src/bot/bot.py` (lines 6081-6109).
`envSecret` is the raw `WEBHOOK_SECRET` environment value (after the `'123'`
default); line 68 of the source assigns `WEBHOOK_SECRET = env.strip()`.
`header` is the `X-Telegram-Bot-Api-Secret-Token` request header (`none` when
absent).  The secret check runs only when
`WEBHOOK_SECRET and WEBHOOK_SECRET.strip()` is truthy.  The boolean result
records whether the request reached the dispatch block. -/
def webhook (envSecret : List Char) (header : Option (List Char))
    (proc : Except String Unit) : HttpResult × Bool :=
  let ws := pyStrip envSecret
  if ws ≠ [] ∧ pyStrip ws ≠ [] then
    if header ≠ some ws then
      ({ body := .text "Unauthorized", status := 403 }, false)
    else (webhook_process proc, true)
  else (webhook_process proc, true)

/-- Dynamic values read by the `/health` route of `src/bot/bot.py`. -/
structure HealthData where
  timestamp : String
  bot_name : String
  bot_id : Int
  bot_username : String
  storage_ok : Bool
  api_status : String
  memory_usage : Nat
  active_games : Nat
  scheduled_tasks : Nat
  pending_admin_requests : Nat
  stat_messages : Nat
  stat_users : Nat
  stat_active_users : Nat
  stat_groups : Nat
  uptime : String
  dna_generation : Int
  dna_fitness : ℚ
  dna_adaptation : ℚ
  dna_modules_active : Nat
  error_text : String

/-- Embedding of the `/health` route of `src/bot/bot.py` (lines 6111-6180):
on success `jsonify` (status 200) of a dict with `status`, `timestamp`,
`bot`, `system`, `stats` and `dna` fields; when the `try` block raises,
a 500 response with `status`, `error` and `timestamp` fields.  `ok` records
whether the body of the `try` block succeeded. -/
def health (ok : Bool) (d : HealthData) : HttpResult :=
  if ok then
    { body := .json [
        ("status", Json.str "healthy"),
        ("timestamp", Json.str d.timestamp),
        ("bot", Json.obj [
          ("name", Json.str d.bot_name),
          ("id", Json.int d.bot_id),
          ("username", Json.str d.bot_username),
          ("running", Json.bool true)]),
        ("system", Json.obj [
          ("storage", Json.bool d.storage_ok),
          ("api_connections", Json.str d.api_status),
          ("memory_usage", Json.int d.memory_usage),
          ("active_games", Json.int d.active_games),
          ("scheduled_tasks", Json.int d.scheduled_tasks),
          ("pending_admin_requests", Json.int d.pending_admin_requests)]),
        ("stats", Json.obj [
          ("messages", Json.int d.stat_messages),
          ("users", Json.int d.stat_users),
          ("active_users", Json.int d.stat_active_users),
          ("groups", Json.int d.stat_groups),
          ("uptime", Json.str d.uptime)]),
        ("dna", Json.obj [
          ("generation", Json.int d.dna_generation),
          ("fitness", Json.rat d.dna_fitness),
          ("adaptation_level", Json.rat d.dna_adaptation),
          ("modules_active", Json.int d.dna_modules_active)])],
      status := 200 }
  else
    { body := .json [
        ("status", Json.str "unhealthy"),
        ("error", Json.str d.error_text),
        ("timestamp", Json.str d.timestamp)],
      status := 500 }

/-! #### Message log (`log_message`, src/bot/bot.py lines 2220-2289) -/

/-- One record of `messages_db`: the per-update snapshot built by
`log_message` (src/bot/bot.py lines 2272-2284). -/
structure MessageLog where
  message_id : Nat
  user_id : Int
  chat_id : Int
  chat_type : String
  text : Option String
  command : Option String
  timestamp : String
  bot_mentioned : Bool
  has_media : Bool
  reply_to : Option Nat
  language : String

/-- The `messages_db` mutation performed at the end of `log_message`
(src/bot/bot.py lines 2286-2288):

```
messages_db.append(message_log)
if len(messages_db) > 5000:  # Keep last 5000 messages
    messages_db.pop(0)
``` -/
def log_message_store (messages_db : List MessageLog) (message_log : MessageLog) :
    List MessageLog :=
  let m := messages_db ++ [message_log]
  if m.length > 5000 then m.tail else m

/-! #### User records (`get_or_create_user`, src/bot/bot.py lines 2091-2169) -/

/-- The `user_data` dict passed to `get_or_create_user`. -/
structure UserData where
  id : Int
  username : Option String
  first_name : Option String
  last_name : Option String

/-- The nested `stats` dict of a user record (the keys written by
`get_or_create_user`). -/
structure UserStats where
  total_interactions : Nat
  last_command : Option String
  favorite_features : List String
  commands_used : List (String × Nat)

/-- One record of `users_db`.  `message_count` is optional because a record
loaded from JSON may lack the key; the code reads it with
`user.get('message_count', 0)`.  `admin_since` is optional because only
`approve_request` ever writes it. -/
structure UserRec where
  user_id : Int
  username : Option String
  first_name : Option String
  last_name : Option String
  first_seen : String
  last_seen : String
  chat_type : String
  message_count : Option Nat
  is_admin : Bool
  admin_since : Option String
  stats : UserStats

/-- The in-place update applied by `get_or_create_user` to an existing
record (src/bot/bot.py lines 2103-2118): `user.update(updates)`. -/
def update_existing_user (now : String) (ud : UserData) (chat_type : String)
    (u : UserRec) : UserRec :=
  { u with
    username := ud.username
    first_name := ud.first_name
    last_name := ud.last_name
    last_seen := now
    chat_type := chat_type
    message_count := some (u.message_count.getD 0 + 1)
    stats := { total_interactions := u.stats.total_interactions + 1
               last_command := none
               favorite_features := u.stats.favorite_features
               commands_used := u.stats.commands_used } }

/-- The new-user record built by `get_or_create_user` (src/bot/bot.py lines
2127-2152).  `admin_flag` stands for `is_admin(user_id)`. -/
def mk_new_user (now : String) (ud : UserData) (chat_type : String)
    (admin_flag : Bool) : UserRec :=
  { user_id := ud.id
    username := ud.username
    first_name := ud.first_name
    last_name := ud.last_name
    first_seen := now
    last_seen := now
    chat_type := chat_type
    message_count := some 1
    is_admin := admin_flag
    admin_since := none
    stats := { total_interactions := 1
               last_command := none
               favorite_features := []
               commands_used := [] } }

/-- Embedding of `get_or_create_user` (src/bot/bot.py lines 2091-2169): scan
`users_db` linearly for the first record with the given id and update it in
place, otherwise append a fresh record. -/
def get_or_create_user (now : String) (ud : UserData) (chat_type : String)
    (admin_flag : Bool) : List UserRec → List UserRec
  | [] => [mk_new_user now ud chat_type admin_flag]
  | u :: rest =>
    if u.user_id = ud.id then update_existing_user now ud chat_type u :: rest
    else u :: get_or_create_user now ud chat_type admin_flag rest

/-! #### Admin request system (src/bot/bot.py lines 169-276) -/

/-- One record of `admin_requests_db` (the dict built in
`request_admin_access`, src/bot/bot.py lines 185-197). -/
structure AdminRequest where
  id : Int
  user_id : Int
  username : String
  first_name : String
  reason : String
  experience : String
  submitted_at : String
  status : String
  reviewed_by : Option Int
  reviewed_at : Option String
  notes : String

/-- Embedding of `AdminRequestSystem.request_admin_access` (lines 175-205):
fail without appending when the user already has a pending request,
otherwise append a new `'pending'` request with id `len(requests) + 1`.
The boolean is the `success` field of the returned dict. -/
def request_admin_access (reqs : List AdminRequest) (uid : Int)
    (username first_name reason experience now : String) :
    List AdminRequest × Bool :=
  let request_id : Int := reqs.length + 1
  if reqs.any (fun r => r.user_id == uid && r.status == "pending") then
    (reqs, false)
  else
    (reqs ++ [{ id := request_id, user_id := uid, username := username,
                first_name := first_name, reason := reason,
                experience := experience, submitted_at := now,
                status := "pending", reviewed_by := none,
                reviewed_at := none, notes := "" }], true)

/-- The `users_db` side effect of `approve_request` (lines 247-252): mark the
first record with the request's user id as admin. -/
def set_admin_flag (uid : Int) (now : String) : List UserRec → List UserRec
  | [] => []
  | u :: rest =>
    if u.user_id = uid then
      { u with is_admin := true, admin_since := some now } :: rest
    else u :: set_admin_flag uid now rest

/-- Embedding of `AdminRequestSystem.approve_request` (lines 238-260): find
the first request with the given id, set its status to `'approved'`, record
the reviewer and notes, and mark the corresponding user as admin; return
failure when no request has that id. -/
def approve_request (request_id admin_id : Int) (notes now : String) :
    List AdminRequest → List UserRec → List AdminRequest × List UserRec × Bool
  | [], users => ([], users, false)
  | r :: rest, users =>
    if r.id = request_id then
      ({ r with status := "approved", reviewed_by := some admin_id,
                reviewed_at := some now, notes := notes } :: rest,
       set_admin_flag r.user_id now users, true)
    else
      let out := approve_request request_id admin_id notes now rest users
      (r :: out.1, out.2.1, out.2.2)

/-- Embedding of `AdminRequestSystem.reject_request` (lines 262-276): find
the first request with the given id and set its status to `'rejected'`. -/
def reject_request (request_id admin_id : Int) (notes now : String) :
    List AdminRequest → List AdminRequest × Bool
  | [] => ([], false)
  | r :: rest =>
    if r.id = request_id then
      ({ r with status := "rejected", reviewed_by := some admin_id,
                reviewed_at := some now, notes := notes } :: rest, true)
    else
      let out := reject_request request_id admin_id notes now rest
      (r :: out.1, out.2)

/-- Number of pending requests of a given user. -/
def pending_count (reqs : List AdminRequest) (uid : Int) : Nat :=
  (reqs.filter (fun r => r.user_id == uid && r.status == "pending")).length

/-- The invariant of claim C9: each user has at most one pending request. -/
def at_most_one_pending (reqs : List AdminRequest) : Prop :=
  ∀ uid : Int, pending_count reqs uid ≤ 1

/-! #### DNA fitness tracking (src/bot/bot.py lines 876-1027) -/

/-- The summary entry appended to `dna["mutations"]` by
`record_intelligent_mutation` (src/bot/bot.py lines 910-917). -/
structure MutationEntry where
  id : String
  module_id : String
  type : String
  timestamp : String
  impact : String
  confidence : ℚ

/-- The parts of the DNA dict touched by `record_intelligent_mutation` and
`_update_advanced_fitness_score`. -/
structure DNA where
  mutations : List MutationEntry
  fitness_score : ℚ
  adaptation_level : ℚ
  traits : List (String × ℚ)

/-- Python `d.get(k, default)` on a string-keyed table. -/
def dictGet (d : List (String × ℚ)) (k : String) (dflt : ℚ) : ℚ :=
  match d.find? (fun p => p.1 == k) with
  | some p => p.2
  | none => dflt

/-- The `impact_weights` table of `_update_advanced_fitness_score`
(src/bot/bot.py lines 982-987). -/
def impact_weights : List (String × ℚ) :=
  [("low", 1), ("medium", 3), ("high", 7), ("critical", 15)]

/-- The `type_weights` table of `_update_advanced_fitness_score`
(src/bot/bot.py lines 989-996). -/
def type_weights : List (String × ℚ) :=
  [("bug_fix", 2), ("optimization", 3/2), ("feature_add", 3),
   ("security_enhancement", 4), ("integration", 3), ("core_change", 5)]

/-- Python `traits[k] = v` on the traits dict: overwrite or insert. -/
def traitSet (ts : List (String × ℚ)) (k : String) (v : ℚ) :
    List (String × ℚ) :=
  if ts.any (fun p => p.1 == k) then
    ts.map (fun p => if p.1 == k then (k, v) else p)
  else ts ++ [(k, v)]

/-- Embedding of `_update_traits` (src/bot/bot.py lines 1016-1027). -/
def update_traits (mutation_type : String) (dna : DNA) : DNA :=
  let traits := dna.traits
  if mutation_type = "optimization" then
    let v := min 1 (dictGet traits "efficiency" (8/10) + 5/100)
    { dna with traits := traitSet traits "efficiency" v }
  else if mutation_type = "feature_add" then
    let v := min 1 (dictGet traits "innovation" (7/10) + 3/100)
    { dna with traits := traitSet traits "innovation" v }
  else if mutation_type = "bug_fix" then
    let v := min 1 (dictGet traits "reliability" (9/10) + 2/100)
    { dna with traits := traitSet traits "reliability" v }
  else dna

/-- Embedding of `_update_advanced_fitness_score` (src/bot/bot.py lines
980-1014): look up the impact and type weights (default 1), scale by
`0.5 + confidence * 0.5`, add to the fitness score capped at 100, adjust the
adaptation level when the score grew, and update the traits. -/
def update_advanced_fitness_score (mutation_type impact : String)
    (confidence : ℚ) (dna : DNA) : DNA :=
  let base_increase := dictGet impact_weights impact 1 *
    dictGet type_weights mutation_type 1
  let confidence_multiplier := 1/2 + confidence * (1/2)
  let score_increase := base_increase * confidence_multiplier
  let new_score := min 100 (dna.fitness_score + score_increase)
  let dna1 :=
    if dna.fitness_score < new_score then
      let lvl := min 1 (dna.adaptation_level + (score_increase / 100) * (1/10))
      { dna with adaptation_level := lvl }
    else dna
  update_traits mutation_type { dna1 with fitness_score := new_score }

/-- Embedding of the DNA-visible effect of `record_intelligent_mutation`
(src/bot/bot.py lines 876-928): append the summary entry to
`dna["mutations"]` and update the fitness score.  `mutation_id` and
`timestamp` stand for the time/randomness-derived values of lines 881 and
892. -/
def record_intelligent_mutation (dna : DNA)
    (mutation_id module_id mutation_type timestamp impact : String)
    (confidence : ℚ) : DNA :=
  let entry : MutationEntry :=
    { id := mutation_id, module_id := module_id, type := mutation_type,
      timestamp := timestamp, impact := impact, confidence := confidence }
  update_advanced_fitness_score mutation_type impact confidence
    { dna with mutations := dna.mutations ++ [entry] }

end BigBot

/-! ## Helper lemmas -/

/-! ### Characters and upper-casing -/

theorem char_eq_of_toNat_eq {c d : Char} (h : c.toNat = d.toNat) : c = d :=
  Char.ext (UInt32.toNat.inj h)

theorem isLowerCh_charUpper (c : Char) : isLowerCh (charUpper c) = false := by
  unfold charUpper
  split
  · next h =>
    unfold isLowerCh at h
    simp only [Bool.and_eq_true, decide_eq_true_eq] at h
    obtain ⟨h1, h2⟩ := h
    interval_cases c.toNat <;> decide
  · next h => simpa [isLowerCh] using h

theorem charUpper_of_not_lower {c : Char} (h : isLowerCh c = false) :
    charUpper c = c := by
  unfold charUpper
  simp [h]

theorem charUpper_charUpper (c : Char) : charUpper (charUpper c) = charUpper c :=
  charUpper_of_not_lower (isLowerCh_charUpper c)

theorem isLowerCh_eq_false_of_fixed {c : Char} (h : charUpper c = c) :
    isLowerCh c = false := by
  rw [← h]
  exact isLowerCh_charUpper c

theorem charUpper_eq_slash {c : Char} (h : charUpper c = '/') : c = '/' := by
  rcases hb : isLowerCh c with _ | _
  · rwa [charUpper_of_not_lower hb] at h
  · exfalso
    unfold charUpper at h
    rw [if_pos hb] at h
    unfold isLowerCh at hb
    simp only [Bool.and_eq_true, decide_eq_true_eq] at hb
    obtain ⟨h1, h2⟩ := hb
    interval_cases c.toNat <;> exact absurd h (by decide)

/-! ### `pyUpper` and friends -/

theorem charUpper_mem_pyUpper {c : Char} {l : List Char} (h : c ∈ pyUpper l) :
    charUpper c = c := by
  obtain ⟨a, _, rfl⟩ := List.mem_map.mp h
  exact charUpper_charUpper a

theorem pyUpper_eq_self {l : List Char} (h : ∀ c ∈ l, charUpper c = c) :
    pyUpper l = l :=
  (List.map_congr_left h).trans (List.map_id l)

theorem pyUpper_pyUpper (l : List Char) : pyUpper (pyUpper l) = pyUpper l :=
  pyUpper_eq_self (fun _ hc => charUpper_mem_pyUpper hc)

theorem slash_mem_pyUpper {l : List Char} : '/' ∈ pyUpper l ↔ '/' ∈ l := by
  constructor
  · intro h
    obtain ⟨a, ha, hae⟩ := List.mem_map.mp h
    rwa [charUpper_eq_slash hae] at ha
  · intro h
    exact List.mem_map.mpr ⟨'/', h, by decide⟩

theorem charUpper_mem_upper_stripped {c : Char} {symbol : List Char}
    (h : c ∈ BOTPy.upper_stripped symbol) : charUpper c = c := by
  unfold BOTPy.upper_stripped removeChar at h
  exact charUpper_mem_pyUpper (List.mem_of_mem_filter (List.mem_of_mem_filter h))

theorem slash_mem_upper_stripped {symbol : List Char}
    (h : '/' ∈ BOTPy.upper_stripped symbol) : '/' ∈ symbol := by
  unfold BOTPy.upper_stripped removeChar at h
  exact slash_mem_pyUpper.mp (List.mem_of_mem_filter (List.mem_of_mem_filter h))

/-! ### Branch equations for `normalize_symbol_for_exchange` -/

theorem normSym_eq (symbol : List Char) :
    BOTPy.normalize_symbol_for_exchange symbol =
      (if '/' ∈ symbol then pyUpper symbol
       else if "USDT".data <:+ BOTPy.upper_stripped symbol then
         (BOTPy.upper_stripped symbol).take
           ((BOTPy.upper_stripped symbol).length - 4) ++ "/USDT".data
       else if "USD".data <:+ BOTPy.upper_stripped symbol then
         (BOTPy.upper_stripped symbol).take
           ((BOTPy.upper_stripped symbol).length - 3) ++ "/USD".data
       else pyUpper symbol) := rfl

theorem normSym_allUpper (symbol : List Char) :
    ∀ c ∈ BOTPy.normalize_symbol_for_exchange symbol, charUpper c = c := by
  intro c hc
  rw [normSym_eq] at hc
  split_ifs at hc with h1 h2 h3
  · exact charUpper_mem_pyUpper hc
  · rcases List.mem_append.mp hc with h | h
    · exact charUpper_mem_upper_stripped (List.take_subset _ _ h)
    · exact (show ∀ x ∈ "/USDT".data, charUpper x = x by decide) c h
  · rcases List.mem_append.mp hc with h | h
    · exact charUpper_mem_upper_stripped (List.take_subset _ _ h)
    · exact (show ∀ x ∈ "/USD".data, charUpper x = x by decide) c h
  · exact charUpper_mem_pyUpper hc

theorem pyUpper_normSym (symbol : List Char) :
    pyUpper (BOTPy.normalize_symbol_for_exchange symbol) =
      BOTPy.normalize_symbol_for_exchange symbol :=
  pyUpper_eq_self (normSym_allUpper symbol)

theorem upper_stripped_pyUpper (symbol : List Char) :
    BOTPy.upper_stripped (pyUpper symbol) = BOTPy.upper_stripped symbol := by
  unfold BOTPy.upper_stripped
  rw [pyUpper_pyUpper]

theorem normSym_idem (symbol : List Char) :
    BOTPy.normalize_symbol_for_exchange (BOTPy.normalize_symbol_for_exchange symbol) =
      BOTPy.normalize_symbol_for_exchange symbol := by
  by_cases h1 : '/' ∈ symbol
  · have e : BOTPy.normalize_symbol_for_exchange symbol = pyUpper symbol := by
      rw [normSym_eq, if_pos h1]
    have hmem : '/' ∈ BOTPy.normalize_symbol_for_exchange symbol := by
      rw [e]
      exact slash_mem_pyUpper.mpr h1
    rw [normSym_eq (BOTPy.normalize_symbol_for_exchange symbol), if_pos hmem,
      pyUpper_normSym]
  · by_cases h2 : "USDT".data <:+ BOTPy.upper_stripped symbol
    · have e : BOTPy.normalize_symbol_for_exchange symbol =
          (BOTPy.upper_stripped symbol).take
            ((BOTPy.upper_stripped symbol).length - 4) ++ "/USDT".data := by
        rw [normSym_eq, if_neg h1, if_pos h2]
      have hmem : '/' ∈ BOTPy.normalize_symbol_for_exchange symbol := by
        rw [e]
        exact List.mem_append.mpr (Or.inr (by decide))
      rw [normSym_eq (BOTPy.normalize_symbol_for_exchange symbol), if_pos hmem,
        pyUpper_normSym]
    · by_cases h3 : "USD".data <:+ BOTPy.upper_stripped symbol
      · have e : BOTPy.normalize_symbol_for_exchange symbol =
            (BOTPy.upper_stripped symbol).take
              ((BOTPy.upper_stripped symbol).length - 3) ++ "/USD".data := by
          rw [normSym_eq, if_neg h1, if_neg h2, if_pos h3]
        have hmem : '/' ∈ BOTPy.normalize_symbol_for_exchange symbol := by
          rw [e]
          exact List.mem_append.mpr (Or.inr (by decide))
        rw [normSym_eq (BOTPy.normalize_symbol_for_exchange symbol), if_pos hmem,
          pyUpper_normSym]
      · have e : BOTPy.normalize_symbol_for_exchange symbol = pyUpper symbol := by
          rw [normSym_eq, if_neg h1, if_neg h2, if_neg h3]
        have hnoslash : '/' ∉ BOTPy.normalize_symbol_for_exchange symbol := by
          rw [e]
          exact fun hm => h1 (slash_mem_pyUpper.mp hm)
        have hs : BOTPy.upper_stripped (BOTPy.normalize_symbol_for_exchange symbol) =
            BOTPy.upper_stripped symbol := by
          rw [e, upper_stripped_pyUpper]
        rw [normSym_eq (BOTPy.normalize_symbol_for_exchange symbol),
          if_neg hnoslash, hs, if_neg h2, if_neg h3, e, pyUpper_pyUpper]

/-! ### `pyStrip` -/

theorem dropWhile_pyStrip (l : List Char) :
    List.dropWhile isPySpace (pyStrip l) = pyStrip l := by
  unfold pyStrip
  rw [List.dropWhile_eq_self_iff]
  intro hl
  have hpre : List.rdropWhile isPySpace (List.dropWhile isPySpace l) <+:
      List.dropWhile isPySpace l := List.rdropWhile_prefix _ _
  have hlen : 0 < (List.dropWhile isPySpace l).length :=
    lt_of_lt_of_le hl (hpre.length_le)
  have hget := hpre.getElem (n := 0) hl
  have hbase := (List.dropWhile_eq_self_iff).mp
    (List.dropWhile_idempotent (p := isPySpace) (l := l)) hlen
  simpa [List.get_eq_getElem, hget] using hbase

theorem pyStrip_idempotent (l : List Char) : pyStrip (pyStrip l) = pyStrip l := by
  conv_lhs => rw [pyStrip, dropWhile_pyStrip]
  conv_lhs => rw [pyStrip]
  rw [List.rdropWhile_idempotent]
  rw [← pyStrip]

/-! ### `get_or_create_user` -/

theorem update_existing_user_id (now : String) (ud : BigBot.UserData)
    (ct : String) (u : BigBot.UserRec) :
    (BigBot.update_existing_user now ud ct u).user_id = u.user_id := rfl

theorem gocu_no_match (now : String) (ud : BigBot.UserData) (ct : String)
    (af : Bool) :
    ∀ db : List BigBot.UserRec, (∀ u ∈ db, u.user_id ≠ ud.id) →
      BigBot.get_or_create_user now ud ct af db =
        db ++ [BigBot.mk_new_user now ud ct af] := by
  intro db h
  induction db with
  | nil => rfl
  | cons u rest ih =>
    have step : BigBot.get_or_create_user now ud ct af (u :: rest) =
        u :: BigBot.get_or_create_user now ud ct af rest := by
      simp only [BigBot.get_or_create_user]
      rw [if_neg (h u (List.mem_cons_self u rest))]
    rw [step, ih (fun v hv => h v (List.mem_cons_of_mem u hv))]
    rfl

theorem gocu_match (now : String) (ud : BigBot.UserData) (ct : String)
    (af : Bool) :
    ∀ (p : List BigBot.UserRec) (u : BigBot.UserRec) (s : List BigBot.UserRec),
      (∀ v ∈ p, v.user_id ≠ ud.id) → u.user_id = ud.id →
      BigBot.get_or_create_user now ud ct af (p ++ u :: s) =
        p ++ BigBot.update_existing_user now ud ct u :: s := by
  intro p
  induction p with
  | nil =>
    intro u s _ hu
    simp only [List.nil_append, BigBot.get_or_create_user]
    rw [if_pos hu]
  | cons v rest ih =>
    intro u s hp hu
    have step : BigBot.get_or_create_user now ud ct af (v :: (rest ++ u :: s)) =
        v :: BigBot.get_or_create_user now ud ct af (rest ++ u :: s) := by
      simp only [BigBot.get_or_create_user]
      rw [if_neg (hp v (List.mem_cons_self v rest))]
    simp only [List.cons_append]
    rw [step, ih u s (fun w hw => hp w (List.mem_cons_of_mem v hw)) hu]

theorem gocu_ids_mem (now : String) (ud : BigBot.UserData) (ct : String)
    (af : Bool) :
    ∀ (db : List BigBot.UserRec) (x : Int),
      x ∈ (BigBot.get_or_create_user now ud ct af db).map (fun u => u.user_id) →
      x ∈ db.map (fun u => u.user_id) ∨ x = ud.id := by
  intro db
  induction db with
  | nil =>
    intro x hx
    right
    simpa [BigBot.get_or_create_user, BigBot.mk_new_user] using hx
  | cons u rest ih =>
    intro x hx
    by_cases he : u.user_id = ud.id
    · simp only [BigBot.get_or_create_user, if_pos he, List.map_cons,
        List.mem_cons, update_existing_user_id] at hx
      rcases hx with hx | hx
      · exact Or.inl (by simp only [List.map_cons, List.mem_cons]; exact Or.inl hx)
      · exact Or.inl (by simp only [List.map_cons, List.mem_cons]; exact Or.inr hx)
    · simp only [BigBot.get_or_create_user, if_neg he, List.map_cons,
        List.mem_cons] at hx
      rcases hx with hx | hx
      · exact Or.inl (by simp only [List.map_cons, List.mem_cons]; exact Or.inl hx)
      · rcases ih x hx with h | h
        · exact Or.inl (by simp only [List.map_cons, List.mem_cons]; exact Or.inr h)
        · exact Or.inr h

theorem gocu_nodup (now : String) (ud : BigBot.UserData) (ct : String)
    (af : Bool) :
    ∀ db : List BigBot.UserRec,
      (db.map (fun u => u.user_id)).Nodup →
      ((BigBot.get_or_create_user now ud ct af db).map
        (fun u => u.user_id)).Nodup := by
  intro db
  induction db with
  | nil =>
    intro _
    simp [BigBot.get_or_create_user]
  | cons u rest ih =>
    intro h
    simp only [List.map_cons, List.nodup_cons] at h
    obtain ⟨hnotin, hrest⟩ := h
    by_cases he : u.user_id = ud.id
    · simp only [BigBot.get_or_create_user, if_pos he, List.map_cons,
        update_existing_user_id, List.nodup_cons]
      exact ⟨hnotin, hrest⟩
    · simp only [BigBot.get_or_create_user, if_neg he, List.map_cons,
        List.nodup_cons]
      refine ⟨fun hmem => ?_, ih hrest⟩
      rcases gocu_ids_mem now ud ct af rest u.user_id hmem with hm | hm
      · exact hnotin hm
      · exact he hm

/-! ### Admin request system -/

theorem pending_count_cons (r : BigBot.AdminRequest)
    (rest : List BigBot.AdminRequest) (uid : Int) :
    BigBot.pending_count (r :: rest) uid =
      (if r.user_id == uid && r.status == "pending" then 1 else 0) +
        BigBot.pending_count rest uid := by
  unfold BigBot.pending_count
  rw [List.filter_cons]
  split_ifs with h
  · simp [h, Nat.add_comm]
  · simp [h]

theorem pending_count_append (a b : List BigBot.AdminRequest) (uid : Int) :
    BigBot.pending_count (a ++ b) uid =
      BigBot.pending_count a uid + BigBot.pending_count b uid := by
  unfold BigBot.pending_count
  rw [List.filter_append, List.length_append]

theorem request_admin_access_pending_found
    (reqs : List BigBot.AdminRequest) (uid : Int)
    (username first_name reason experience now : String)
    (h : ∃ r ∈ reqs, r.user_id = uid ∧ r.status = "pending") :
    BigBot.request_admin_access reqs uid username first_name reason
      experience now = (reqs, false) := by
  unfold BigBot.request_admin_access
  rw [if_pos]
  rw [List.any_eq_true]
  obtain ⟨r, hr, h1, h2⟩ := h
  exact ⟨r, hr, by simp [h1, h2]⟩

theorem request_admin_access_inv (reqs : List BigBot.AdminRequest) (uid : Int)
    (username first_name reason experience now : String)
    (h : BigBot.at_most_one_pending reqs) :
    BigBot.at_most_one_pending
      (BigBot.request_admin_access reqs uid username first_name reason
        experience now).1 := by
  unfold BigBot.request_admin_access
  split_ifs with hc
  · exact h
  · intro uid'
    rw [pending_count_append]
    by_cases he : uid' = uid
    · subst he
      have hany : reqs.any
          (fun r => r.user_id == uid' && r.status == "pending") = false := by
        rw [Bool.eq_false_iff]
        exact hc
      have hzero : BigBot.pending_count reqs uid' = 0 := by
        unfold BigBot.pending_count
        rw [List.length_eq_zero, List.filter_eq_nil_iff]
        exact List.any_eq_false.mp hany
      rw [hzero]
      simp [BigBot.pending_count]
    · have hone : BigBot.pending_count
          [{ id := (reqs.length : Int) + 1, user_id := uid,
             username := username, first_name := first_name,
             reason := reason, experience := experience,
             submitted_at := now, status := "pending", reviewed_by := none,
             reviewed_at := none, notes := "" }] uid' = 0 := by
        simp [BigBot.pending_count, Ne.symm he]
      rw [hone]
      simpa using h uid'

theorem approve_request_length (rid aid : Int) (notes now : String) :
    ∀ (reqs : List BigBot.AdminRequest) (users : List BigBot.UserRec),
      (BigBot.approve_request rid aid notes now reqs users).1.length =
        reqs.length := by
  intro reqs
  induction reqs with
  | nil => intro users; rfl
  | cons r rest ih =>
    intro users
    simp only [BigBot.approve_request]
    split_ifs with h
    · simp
    · simp [ih users]

theorem approve_request_pending_le (rid aid : Int) (notes now : String) :
    ∀ (reqs : List BigBot.AdminRequest) (users : List BigBot.UserRec)
      (uid : Int),
      BigBot.pending_count
        (BigBot.approve_request rid aid notes now reqs users).1 uid ≤
        BigBot.pending_count reqs uid := by
  intro reqs
  induction reqs with
  | nil => intro users uid; exact le_refl _
  | cons r rest ih =>
    intro users uid
    simp only [BigBot.approve_request]
    split_ifs with h
    · rw [pending_count_cons, pending_count_cons]
      simp only []
      apply Nat.add_le_add_right
      split_ifs with h1 h2 h2 <;> simp_all
    · rw [pending_count_cons, pending_count_cons]
      exact Nat.add_le_add_left (ih users uid) _

theorem approve_request_pending_mem (rid aid : Int) (notes now : String) :
    ∀ (reqs : List BigBot.AdminRequest) (users : List BigBot.UserRec),
      ∀ r' ∈ (BigBot.approve_request rid aid notes now reqs users).1,
        r'.status = "pending" → r' ∈ reqs := by
  intro reqs
  induction reqs with
  | nil => intro users r' hr'; simp [BigBot.approve_request] at hr'
  | cons r rest ih =>
    intro users r' hr' hp
    simp only [BigBot.approve_request] at hr'
    split_ifs at hr' with h
    · rcases List.mem_cons.mp hr' with he | he
      · rw [he] at hp
        simp at hp
      · exact List.mem_cons_of_mem r he
    · rcases List.mem_cons.mp hr' with he | he
      · exact he ▸ List.mem_cons_self r rest
      · exact List.mem_cons_of_mem r (ih users r' he hp)

theorem reject_request_length (rid aid : Int) (notes now : String) :
    ∀ reqs : List BigBot.AdminRequest,
      (BigBot.reject_request rid aid notes now reqs).1.length = reqs.length := by
  intro reqs
  induction reqs with
  | nil => rfl
  | cons r rest ih =>
    simp only [BigBot.reject_request]
    split_ifs with h
    · simp
    · simp [ih]

theorem reject_request_pending_le (rid aid : Int) (notes now : String) :
    ∀ (reqs : List BigBot.AdminRequest) (uid : Int),
      BigBot.pending_count (BigBot.reject_request rid aid notes now reqs).1 uid ≤
        BigBot.pending_count reqs uid := by
  intro reqs
  induction reqs with
  | nil => intro uid; exact le_refl _
  | cons r rest ih =>
    intro uid
    simp only [BigBot.reject_request]
    split_ifs with h
    · rw [pending_count_cons, pending_count_cons]
      apply Nat.add_le_add_right
      split_ifs with h1 h2 h2 <;> simp_all
    · rw [pending_count_cons, pending_count_cons]
      exact Nat.add_le_add_left (ih uid) _

theorem reject_request_pending_mem (rid aid : Int) (notes now : String) :
    ∀ reqs : List BigBot.AdminRequest,
      ∀ r' ∈ (BigBot.reject_request rid aid notes now reqs).1,
        r'.status = "pending" → r' ∈ reqs := by
  intro reqs
  induction reqs with
  | nil => intro r' hr'; simp [BigBot.reject_request] at hr'
  | cons r rest ih =>
    intro r' hr' hp
    simp only [BigBot.reject_request] at hr'
    split_ifs at hr' with h
    · rcases List.mem_cons.mp hr' with he | he
      · rw [he] at hp
        simp at hp
      · exact List.mem_cons_of_mem r he
    · rcases List.mem_cons.mp hr' with he | he
      · exact he ▸ List.mem_cons_self r rest
      · exact List.mem_cons_of_mem r (ih r' he hp)

/-! ### DNA fitness -/

theorem update_traits_mutations (mt : String) (d : BigBot.DNA) :
    (BigBot.update_traits mt d).mutations = d.mutations := by
  unfold BigBot.update_traits
  split_ifs <;> rfl

theorem update_traits_fitness (mt : String) (d : BigBot.DNA) :
    (BigBot.update_traits mt d).fitness_score = d.fitness_score := by
  unfold BigBot.update_traits
  split_ifs <;> rfl

theorem update_advanced_fitness_mutations (mt impact : String) (conf : ℚ)
    (d : BigBot.DNA) :
    (BigBot.update_advanced_fitness_score mt impact conf d).mutations =
      d.mutations := by
  unfold BigBot.update_advanced_fitness_score
  rw [update_traits_mutations]
  split_ifs <;> rfl

theorem update_advanced_fitness_score_eq (mt impact : String) (conf : ℚ)
    (d : BigBot.DNA) :
    (BigBot.update_advanced_fitness_score mt impact conf d).fitness_score =
      min 100 (d.fitness_score +
        BigBot.dictGet BigBot.impact_weights impact 1 *
          BigBot.dictGet BigBot.type_weights mt 1 *
          (1/2 + conf * (1/2))) := by
  unfold BigBot.update_advanced_fitness_score
  rw [update_traits_fitness]

/-! ## Claims -/

/-- C8: `normalize_symbol_for_exchange` is idempotent — applying it twice
gives the same result as applying it once — and its result is unchanged by
upper-casing: it contains no lowercase letters. -/
theorem C8_normalize_symbol_idempotent_and_upper (symbol : List Char) :
    BOTPy.normalize_symbol_for_exchange
        (BOTPy.normalize_symbol_for_exchange symbol) =
      BOTPy.normalize_symbol_for_exchange symbol
    ∧ pyUpper (BOTPy.normalize_symbol_for_exchange symbol) =
      BOTPy.normalize_symbol_for_exchange symbol
    ∧ ∀ c ∈ BOTPy.normalize_symbol_for_exchange symbol, isLowerCh c = false :=
  ⟨normSym_idem symbol, pyUpper_normSym symbol,
   fun _ hc => isLowerCh_eq_false_of_fixed (normSym_allUpper symbol _ hc)⟩

/-- Witness for C8 at the concrete input `"btc-usdt"`, whose normalisation is
`"BTC/USDT"`. -/
theorem C8_normalize_symbol_idempotent_and_upper_witness :
    BOTPy.normalize_symbol_for_exchange
        (BOTPy.normalize_symbol_for_exchange ("btc-usdt".data)) =
      BOTPy.normalize_symbol_for_exchange ("btc-usdt".data)
    ∧ isLowerCh 'B' = false :=
  ⟨(C8_normalize_symbol_idempotent_and_upper ("btc-usdt".data)).1,
   (C8_normalize_symbol_idempotent_and_upper ("btc-usdt".data)).2.2 'B'
     (by decide)⟩

/-- C5: `record_intelligent_mutation` appends exactly one summary entry to
the DNA's mutations list and sets the fitness score to the old score plus
`impact_weight * type_weight * (0.5 + 0.5 * confidence)`, capped at 100,
where the weights come from the `impact_weights` and `type_weights` lookup
tables (default weight 1). -/
theorem C5_record_intelligent_mutation_fitness (dna : BigBot.DNA)
    (mid mod mt ts impact : String) (conf : ℚ) :
    (BigBot.record_intelligent_mutation dna mid mod mt ts impact conf).mutations =
      dna.mutations ++ [{ id := mid, module_id := mod, type := mt,
                          timestamp := ts, impact := impact,
                          confidence := conf }]
    ∧ (BigBot.record_intelligent_mutation dna mid mod mt ts impact
          conf).fitness_score =
        min 100 (dna.fitness_score +
          BigBot.dictGet BigBot.impact_weights impact 1 *
            BigBot.dictGet BigBot.type_weights mt 1 *
            (1/2 + (1/2) * conf))
    ∧ BigBot.dictGet BigBot.impact_weights "low" 1 = 1
    ∧ BigBot.dictGet BigBot.impact_weights "medium" 1 = 3
    ∧ BigBot.dictGet BigBot.impact_weights "high" 1 = 7
    ∧ BigBot.dictGet BigBot.impact_weights "critical" 1 = 15
    ∧ BigBot.dictGet BigBot.type_weights "bug_fix" 1 = 2
    ∧ BigBot.dictGet BigBot.type_weights "optimization" 1 = 3/2
    ∧ BigBot.dictGet BigBot.type_weights "feature_add" 1 = 3
    ∧ BigBot.dictGet BigBot.type_weights "security_enhancement" 1 = 4
    ∧ BigBot.dictGet BigBot.type_weights "integration" 1 = 3
    ∧ BigBot.dictGet BigBot.type_weights "core_change" 1 = 5
    ∧ (∀ impact' : String, impact' ∉ ["low", "medium", "high", "critical"] →
        BigBot.dictGet BigBot.impact_weights impact' 1 = 1) := by
  have tbl : ∀ k : String, ∀ dflt : ℚ,
      BigBot.dictGet BigBot.impact_weights k dflt =
        (if "low" = k then 1 else if "medium" = k then 3
         else if "high" = k then 7 else if "critical" = k then 15
         else dflt) := by
    intro k dflt
    unfold BigBot.dictGet BigBot.impact_weights
    simp only [List.find?]
    split_ifs with e1 e2 e3 e4
    · subst e1; rfl
    · subst e2; rfl
    · subst e3; rfl
    · subst e4; rfl
    · simp only [beq_eq_false_iff_ne.mpr e1, beq_eq_false_iff_ne.mpr e2,
        beq_eq_false_iff_ne.mpr e3, beq_eq_false_iff_ne.mpr e4]
  refine ⟨?_, ?_, ?_, ?_, ?_, ?_, ?_, ?_, ?_, ?_, ?_, ?_, ?_⟩
  · unfold BigBot.record_intelligent_mutation
    rw [update_advanced_fitness_mutations]
  · unfold BigBot.record_intelligent_mutation
    rw [update_advanced_fitness_score_eq]
    ring_nf
  · unfold BigBot.dictGet BigBot.impact_weights
    simp [List.find?]
  · unfold BigBot.dictGet BigBot.impact_weights
    simp [List.find?]
  · unfold BigBot.dictGet BigBot.impact_weights
    simp [List.find?]
  · unfold BigBot.dictGet BigBot.impact_weights
    simp [List.find?]
  · unfold BigBot.dictGet BigBot.type_weights
    simp [List.find?]
  · unfold BigBot.dictGet BigBot.type_weights
    simp [List.find?]
  · unfold BigBot.dictGet BigBot.type_weights
    simp [List.find?]
  · unfold BigBot.dictGet BigBot.type_weights
    simp [List.find?]
  · unfold BigBot.dictGet BigBot.type_weights
    simp [List.find?]
  · unfold BigBot.dictGet BigBot.type_weights
    simp [List.find?]
  · intro impact' h
    simp only [List.mem_cons, List.not_mem_nil, or_false, not_or] at h
    obtain ⟨h1, h2, h3, h4⟩ := h
    rw [tbl]
    rw [if_neg (fun he => h1 he.symm), if_neg (fun he => h2 he.symm),
      if_neg (fun he => h3 he.symm), if_neg (fun he => h4 he.symm)]

/-- C6 (counterexample): the claim that every variant's `/health` endpoint
returns a JSON body with status/stats fields is false for `src/bot.py`,
whose `/health` route returns the plain-text body `"ok"` (its JSON status
endpoint is `/healthz`). -/
theorem C6_health_counterexample :
    BotPy.health.body = HttpBody.text "ok"
    ∧ BotPy.health.body.hasField "status" = false
    ∧ BotPy.health.body.hasField "stats" = false
    ∧ BotPy.health.status = 200 :=
  ⟨rfl, rfl, rfl, rfl⟩

/-- C6 (amended): the `/health` routes of `src/BOT/bot.py` and
`src/bot/bot.py` return JSON bodies containing a `status` field (with
`stats` included on `src/bot/bot.py`'s success path, status 200); `src/bot.py`'s
`/health` returns the plain text `"ok"` with status 200, while its
`/healthz` returns a JSON `status` field. -/
theorem C6_health_status_fields :
    (∀ (ready : Bool) (wu tok ts : String),
      (BOTPy.health ready wu tok ts).body.hasField "status" = true
      ∧ (BOTPy.health ready wu tok ts).status = 200)
    ∧ (∀ (ok : Bool) (d : BigBot.HealthData),
      (BigBot.health ok d).body.hasField "status" = true)
    ∧ (∀ d : BigBot.HealthData,
      (BigBot.health true d).body.hasField "stats" = true
      ∧ (BigBot.health true d).status = 200
      ∧ (BigBot.health false d).status = 500)
    ∧ BotPy.healthz.body.hasField "status" = true
    ∧ BotPy.health = { body := .text "ok", status := 200 } := by
  refine ⟨fun ready wu tok ts => ⟨rfl, rfl⟩, fun ok d => ?_,
    fun d => ⟨rfl, rfl, rfl⟩, rfl, rfl⟩
  cases ok <;> rfl

/-- C1: a webhook POST whose supplied secret does not equal the configured
`WEBHOOK_SECRET` is answered with HTTP 403 and the update is neither parsed
nor dispatched: the `<secret>` URL path segment in `src/bot.py`, and the
`X-Telegram-Bot-Api-Secret-Token` header in `src/bot/bot.py` whenever the
configured `WEBHOOK_SECRET` (the stripped environment value) is non-empty. -/
theorem C1_invalid_secret_yields_403 :
    (∀ (cfg url : String) (req : BotPy.WebhookRequest), url ≠ cfg →
      BotPy.webhook cfg url req =
        ({ body := .text "Forbidden", status := 403 }, []))
    ∧ (∀ (env : List Char) (header : Option (List Char))
        (proc : Except String Unit), pyStrip env ≠ [] →
        header ≠ some (pyStrip env) →
        BigBot.webhook env header proc =
          ({ body := .text "Unauthorized", status := 403 }, false)) := by
  constructor
  · intro cfg url req h
    unfold BotPy.webhook
    rw [if_pos h]
  · intro env header proc hne hh
    simp only [BigBot.webhook]
    rw [if_pos ⟨hne, by rw [pyStrip_idempotent]; exact hne⟩, if_pos hh]

/-- Witness for C1: a wrong URL secret in `src/bot.py` and a missing header
secret in `src/bot/bot.py` (with configured secret `"abc"`). -/
theorem C1_invalid_secret_yields_403_witness :
    BotPy.webhook "s3cret" "wrong" ⟨true, .ok ⟨1, none⟩⟩ =
      ({ body := .text "Forbidden", status := 403 }, [])
    ∧ BigBot.webhook "abc".data none (.ok ()) =
      ({ body := .text "Unauthorized", status := 403 }, false) :=
  ⟨C1_invalid_secret_yields_403.1 "s3cret" "wrong" ⟨true, .ok ⟨1, none⟩⟩
     (by decide),
   C1_invalid_secret_yields_403.2 "abc".data none (.ok ()) (by decide)
     (by decide)⟩

/-- C2: with the correct secret, an exception raised while constructing or
dispatching the update is caught, and the handler returns an HTTP response
instead of propagating: `src/bot.py` returns "OK"/200 even on error, while
`src/bot/bot.py` returns "Error"/500 on error and "OK"/200 on success. -/
theorem C2_webhook_catches_dispatch_errors :
    (∀ (cfg : String) (req : BotPy.WebhookRequest) (e : String),
      req.is_json = true → req.parsed = .error e →
      BotPy.webhook cfg cfg req = ({ body := .text "OK", status := 200 }, []))
    ∧ (∀ (cfg : String) (req : BotPy.WebhookRequest) (u : BotPy.TgUpdate),
      req.is_json = true → req.parsed = .ok u →
      (BotPy.webhook cfg cfg req).1 = { body := .text "OK", status := 200 })
    ∧ (∀ (env : List Char) (e : String),
      (BigBot.webhook env (some (pyStrip env)) (.error e)).1 =
        { body := .text "Error", status := 500 })
    ∧ (∀ env : List Char,
      (BigBot.webhook env (some (pyStrip env)) (.ok ())).1 =
        { body := .text "OK", status := 200 }) := by
  refine ⟨?_, ?_, ?_, ?_⟩
  · intro cfg req e h1 h2
    simp [BotPy.webhook, h1, h2]
  · intro cfg req u h1 h2
    simp [BotPy.webhook, h1, h2]
  · intro env e
    by_cases hc : pyStrip env ≠ [] ∧ pyStrip (pyStrip env) ≠ []
    · simp [BigBot.webhook, BigBot.webhook_process, hc]
    · simp only [BigBot.webhook]
      rw [if_neg hc]
      rfl
  · intro env
    by_cases hc : pyStrip env ≠ [] ∧ pyStrip (pyStrip env) ≠ []
    · simp [BigBot.webhook, BigBot.webhook_process, hc]
    · simp only [BigBot.webhook]
      rw [if_neg hc]
      rfl

/-- Witness for C2: a failing parse with the correct secret in both
variants, and a successful one in each. -/
theorem C2_webhook_catches_dispatch_errors_witness :
    BotPy.webhook "s" "s" ⟨true, .error "boom"⟩ =
      ({ body := .text "OK", status := 200 }, [])
    ∧ (BotPy.webhook "s" "s" ⟨true, .ok ⟨1, none⟩⟩).1 =
      { body := .text "OK", status := 200 }
    ∧ (BigBot.webhook "abc".data (some (pyStrip "abc".data)) (.error "boom")).1 =
      { body := .text "Error", status := 500 }
    ∧ (BigBot.webhook "abc".data (some (pyStrip "abc".data)) (.ok ())).1 =
      { body := .text "OK", status := 200 } :=
  ⟨C2_webhook_catches_dispatch_errors.1 "s" ⟨true, .error "boom"⟩ "boom" rfl rfl,
   C2_webhook_catches_dispatch_errors.2.1 "s" ⟨true, .ok ⟨1, none⟩⟩ ⟨1, none⟩
     rfl rfl,
   C2_webhook_catches_dispatch_errors.2.2.1 "abc".data "boom",
   C2_webhook_catches_dispatch_errors.2.2.2 "abc".data⟩

/-- C7: a POST to `src/bot.py`'s webhook with the correct secret carrying a
valid update with a message dispatches the registered handler
`handle_all_messages` on that message, which replies via `bot.send_message`
with `"קיבלתי: <text>"` when the message has (non-empty) text and with a
fixed acknowledgement otherwise, and the endpoint returns HTTP 200. -/
theorem C7_valid_update_invokes_handler (cfg : String)
    (req : BotPy.WebhookRequest) (u : BotPy.TgUpdate) (m : BotPy.TgMessage) :
    req.is_json = true → req.parsed = .ok u → u.message = some m →
    BotPy.webhook cfg cfg req =
      ({ body := .text "OK", status := 200 }, BotPy.handle_all_messages m)
    ∧ (∀ t : String, m.text = some t → t ≠ "" →
        BotPy.handle_all_messages m =
          [BotPy.BotAction.sendMessage m.chat_id ("קיבלתי: " ++ t)])
    ∧ ((m.text = none ∨ m.text = some "") →
        BotPy.handle_all_messages m =
          [BotPy.BotAction.sendMessage m.chat_id
            "קיבלתי את ההודעה שלך — תודה!"]) := by
  intro h1 h2 h3
  refine ⟨?_, ?_, ?_⟩
  · simp [BotPy.webhook, BotPy.process_new_updates, BotPy.handler_filter,
      h1, h2, h3]
  · intro t ht htne
    simp [BotPy.handle_all_messages, ht, htne]
  · intro ht
    rcases ht with ht | ht <;> simp [BotPy.handle_all_messages, ht]

/-- Witness for C7: a concrete text message through the webhook. -/
theorem C7_valid_update_invokes_handler_witness :
    BotPy.webhook "s" "s" ⟨true, .ok ⟨5, some ⟨77, 9, some "שלום"⟩⟩⟩ =
      ({ body := .text "OK", status := 200 },
        BotPy.handle_all_messages ⟨77, 9, some "שלום"⟩)
    ∧ BotPy.handle_all_messages ⟨77, 9, some "שלום"⟩ =
      [BotPy.BotAction.sendMessage 77 ("קיבלתי: " ++ "שלום")] := by
  have h := C7_valid_update_invokes_handler "s" ⟨true, .ok ⟨5, some ⟨77, 9, some "שלום"⟩⟩⟩
    ⟨5, some ⟨77, 9, some "שלום"⟩⟩ ⟨77, 9, some "שלום"⟩ rfl rfl rfl
  exact ⟨h.1, h.2.1 "שלום" rfl (by decide)⟩

/-- C10: a non-JSON POST to `src/bot.py`'s webhook with the correct secret
is rejected with HTTP 400 before the update body is read or dispatched (the
response does not depend on the body and no handler runs), and the 403
secret check takes precedence over the 400 content-type check. -/
theorem C10_non_json_yields_400 (cfg : String) (isj : Bool)
    (b1 b2 : Except String BotPy.TgUpdate) :
    isj = false →
    BotPy.webhook cfg cfg ⟨isj, b1⟩ =
      ({ body := .text "Bad Request", status := 400 }, [])
    ∧ BotPy.webhook cfg cfg ⟨isj, b1⟩ = BotPy.webhook cfg cfg ⟨isj, b2⟩
    ∧ (∀ url : String, url ≠ cfg →
        BotPy.webhook cfg url ⟨isj, b1⟩ =
          ({ body := .text "Forbidden", status := 403 }, [])) := by
  intro h
  subst h
  refine ⟨by simp [BotPy.webhook], by simp [BotPy.webhook], ?_⟩
  intro url hu
  simp [BotPy.webhook, hu]

/-- Witness for C10: a concrete non-JSON request, with differing bodies and
a wrong secret. -/
theorem C10_non_json_yields_400_witness :
    BotPy.webhook "s" "s" ⟨false, .error "x"⟩ =
      ({ body := .text "Bad Request", status := 400 }, [])
    ∧ BotPy.webhook "s" "s" ⟨false, .error "x"⟩ =
      BotPy.webhook "s" "s" ⟨false, .ok ⟨1, none⟩⟩
    ∧ BotPy.webhook "s" "wrong" ⟨false, .error "x"⟩ =
      ({ body := .text "Forbidden", status := 403 }, []) := by
  have h := C10_non_json_yields_400 "s" false (.error "x") (.ok ⟨1, none⟩) rfl
  exact ⟨h.1, h.2.1, h.2.2 "wrong" (by decide)⟩

/-- C3: `log_message` appends exactly one snapshot record to `messages_db`,
and when the length then exceeds 5000 it removes exactly the oldest entry
(index 0); hence from any state with at most 5000 entries the list stays at
most 5000 entries long and its last entry is the newly logged message. -/
theorem C3_log_message_truncation (db : List BigBot.MessageLog)
    (entry : BigBot.MessageLog) :
    (BigBot.log_message_store db entry).getLast? = some entry
    ∧ (db.length + 1 > 5000 →
        BigBot.log_message_store db entry = (db ++ [entry]).tail
        ∧ (BigBot.log_message_store db entry).length = db.length)
    ∧ (db.length + 1 ≤ 5000 →
        BigBot.log_message_store db entry = db ++ [entry])
    ∧ (db.length ≤ 5000 →
        (BigBot.log_message_store db entry).length ≤ 5000) := by
  unfold BigBot.log_message_store
  by_cases h : (db ++ [entry]).length > 5000
  · rw [if_pos h]
    simp only [List.length_append, List.length_singleton] at h
    cases db with
    | nil => simp at h
    | cons x rest =>
      refine ⟨?_, fun _ => ⟨rfl, ?_⟩, fun hle => ?_, fun hle => ?_⟩
      · simp [List.getLast?_concat]
      · simp
      · exfalso
        simp only [List.length_cons] at hle h
        omega
      · simp only [List.length_cons] at hle
        simp
        omega
  · rw [if_neg h]
    simp only [List.length_append, List.length_singleton] at h
    refine ⟨List.getLast?_concat _, fun hgt => absurd hgt (by omega),
      fun _ => rfl, fun _ => ?_⟩
    simp only [List.length_append, List.length_singleton]
    omega

/-- Witness for C3: logging into a two-entry store. -/
theorem C3_log_message_truncation_witness :
    (BigBot.log_message_store [] ⟨1, 2, 3, "private", none, none, "t",
        false, false, none, "other"⟩).getLast? =
      some ⟨1, 2, 3, "private", none, none, "t", false, false, none, "other"⟩
    ∧ BigBot.log_message_store [] ⟨1, 2, 3, "private", none, none, "t",
        false, false, none, "other"⟩ =
      [] ++ [⟨1, 2, 3, "private", none, none, "t", false, false, none,
        "other"⟩] := by
  have h := C3_log_message_truncation []
    ⟨1, 2, 3, "private", none, none, "t", false, false, none, "other"⟩
  exact ⟨h.1, h.2.2.1 (by norm_num)⟩

/-- C4: `get_or_create_user` updates the first record carrying the given
user id in place — incrementing its message count by exactly one and
refreshing its last-seen timestamp — without appending; when no record
carries the id it appends exactly one fresh record with that id and message
count 1.  Consequently pairwise-distinct user ids remain pairwise
distinct. -/
theorem C4_get_or_create_user_dedup (now : String) (ud : BigBot.UserData)
    (ct : String) (af : Bool) (db : List BigBot.UserRec) :
    ((∀ u ∈ db, u.user_id ≠ ud.id) →
      BigBot.get_or_create_user now ud ct af db =
        db ++ [BigBot.mk_new_user now ud ct af]
      ∧ (BigBot.mk_new_user now ud ct af).user_id = ud.id
      ∧ (BigBot.mk_new_user now ud ct af).message_count = some 1)
    ∧ (∀ (p s : List BigBot.UserRec) (u : BigBot.UserRec),
        db = p ++ u :: s → (∀ v ∈ p, v.user_id ≠ ud.id) → u.user_id = ud.id →
        BigBot.get_or_create_user now ud ct af db =
          p ++ BigBot.update_existing_user now ud ct u :: s
        ∧ (BigBot.get_or_create_user now ud ct af db).length = db.length
        ∧ (BigBot.update_existing_user now ud ct u).message_count =
            some (u.message_count.getD 0 + 1)
        ∧ (BigBot.update_existing_user now ud ct u).last_seen = now
        ∧ (BigBot.update_existing_user now ud ct u).user_id = u.user_id)
    ∧ ((db.map (fun u => u.user_id)).Nodup →
        ((BigBot.get_or_create_user now ud ct af db).map
          (fun u => u.user_id)).Nodup) := by
  refine ⟨fun h => ⟨gocu_no_match now ud ct af db h, rfl, rfl⟩,
    fun p s u hdb hp hu => ?_, gocu_nodup now ud ct af db⟩
  subst hdb
  refine ⟨gocu_match now ud ct af p u s hp hu, ?_, rfl, rfl, rfl⟩
  rw [gocu_match now ud ct af p u s hp hu]
  simp

/-- Witness for C4: an existing-user call (id 7, message count 3) and an
appending call on a database without the id. -/
theorem C4_get_or_create_user_dedup_witness :
    BigBot.get_or_create_user "t1" ⟨7, none, none, none⟩ "private" false
        [⟨7, none, none, none, "t0", "t0", "private", some 3, false, none,
          ⟨3, none, [], []⟩⟩] =
      [] ++ BigBot.update_existing_user "t1" ⟨7, none, none, none⟩ "private"
        ⟨7, none, none, none, "t0", "t0", "private", some 3, false, none,
          ⟨3, none, [], []⟩⟩ :: []
    ∧ (BigBot.update_existing_user "t1" ⟨7, none, none, none⟩ "private"
        ⟨7, none, none, none, "t0", "t0", "private", some 3, false, none,
          ⟨3, none, [], []⟩⟩).message_count = some 4
    ∧ BigBot.get_or_create_user "t1" ⟨8, none, none, none⟩ "private" false [] =
      [] ++ [BigBot.mk_new_user "t1" ⟨8, none, none, none⟩ "private" false] := by
  have h1 := (C4_get_or_create_user_dedup "t1" ⟨7, none, none, none⟩ "private"
    false [⟨7, none, none, none, "t0", "t0", "private", some 3, false, none,
      ⟨3, none, [], []⟩⟩]).2.1 [] []
    ⟨7, none, none, none, "t0", "t0", "private", some 3, false, none,
      ⟨3, none, [], []⟩⟩ rfl (by intro v hv; simp at hv) rfl
  have h2 := (C4_get_or_create_user_dedup "t1" ⟨8, none, none, none⟩ "private"
    false []).1 (by intro v hv; simp at hv)
  exact ⟨h1.1, h1.2.2.1, h2.1⟩

/-- C9: the admin request system keeps at most one pending request per user:
`request_admin_access` fails and appends nothing when the user already has a
pending request and otherwise preserves the invariant, while
`approve_request` and `reject_request` never add requests, never increase
any user's pending count, and any request still pending afterwards was
already in the list. -/
theorem C9_admin_requests_one_pending :
    (∀ (reqs : List BigBot.AdminRequest) (uid : Int)
        (username first_name reason experience now : String),
      (∃ r ∈ reqs, r.user_id = uid ∧ r.status = "pending") →
      BigBot.request_admin_access reqs uid username first_name reason
        experience now = (reqs, false))
    ∧ (∀ (reqs : List BigBot.AdminRequest) (uid : Int)
        (username first_name reason experience now : String),
      BigBot.at_most_one_pending reqs →
      BigBot.at_most_one_pending
        (BigBot.request_admin_access reqs uid username first_name reason
          experience now).1)
    ∧ (∀ (rid aid : Int) (notes now : String)
        (reqs : List BigBot.AdminRequest) (users : List BigBot.UserRec),
      (BigBot.approve_request rid aid notes now reqs users).1.length =
        reqs.length
      ∧ (∀ uid : Int,
          BigBot.pending_count
            (BigBot.approve_request rid aid notes now reqs users).1 uid ≤
          BigBot.pending_count reqs uid)
      ∧ (∀ r' ∈ (BigBot.approve_request rid aid notes now reqs users).1,
          r'.status = "pending" → r' ∈ reqs)
      ∧ (BigBot.at_most_one_pending reqs →
          BigBot.at_most_one_pending
            (BigBot.approve_request rid aid notes now reqs users).1))
    ∧ (∀ (rid aid : Int) (notes now : String)
        (reqs : List BigBot.AdminRequest),
      (BigBot.reject_request rid aid notes now reqs).1.length = reqs.length
      ∧ (∀ uid : Int,
          BigBot.pending_count
            (BigBot.reject_request rid aid notes now reqs).1 uid ≤
          BigBot.pending_count reqs uid)
      ∧ (∀ r' ∈ (BigBot.reject_request rid aid notes now reqs).1,
          r'.status = "pending" → r' ∈ reqs)
      ∧ (BigBot.at_most_one_pending reqs →
          BigBot.at_most_one_pending
            (BigBot.reject_request rid aid notes now reqs).1)) := by
  refine ⟨request_admin_access_pending_found, request_admin_access_inv,
    fun rid aid notes now reqs users => ?_, fun rid aid notes now reqs => ?_⟩
  · refine ⟨approve_request_length rid aid notes now reqs users,
      approve_request_pending_le rid aid notes now reqs users,
      approve_request_pending_mem rid aid notes now reqs users, fun hinv uid => ?_⟩
    exact le_trans (approve_request_pending_le rid aid notes now reqs users uid)
      (hinv uid)
  · refine ⟨reject_request_length rid aid notes now reqs,
      reject_request_pending_le rid aid notes now reqs,
      reject_request_pending_mem rid aid notes now reqs, fun hinv uid => ?_⟩
    exact le_trans (reject_request_pending_le rid aid notes now reqs uid)
      (hinv uid)

/-- Witness for C9: a duplicate request by user 5 fails against a list
holding their pending request, and approving that request preserves the
invariant. -/
theorem C9_admin_requests_one_pending_witness :
    BigBot.request_admin_access
        [⟨1, 5, "u", "f", "", "", "t0", "pending", none, none, ""⟩] 5
        "u" "f" "r" "e" "t1" =
      ([⟨1, 5, "u", "f", "", "", "t0", "pending", none, none, ""⟩], false)
    ∧ BigBot.at_most_one_pending
        (BigBot.approve_request 1 9 "ok" "t2"
          [⟨1, 5, "u", "f", "", "", "t0", "pending", none, none, ""⟩] []).1 := by
  constructor
  · exact C9_admin_requests_one_pending.1
      [⟨1, 5, "u", "f", "", "", "t0", "pending", none, none, ""⟩] 5
      "u" "f" "r" "e" "t1"
      ⟨⟨1, 5, "u", "f", "", "", "t0", "pending", none, none, ""⟩,
        List.mem_singleton.mpr rfl, rfl, rfl⟩
  · refine (C9_admin_requests_one_pending.2.2.1 1 9 "ok" "t2"
      [⟨1, 5, "u", "f", "", "", "t0", "pending", none, none, ""⟩] []).2.2.2 ?_
    intro uid
    by_cases h : uid = 5
    · subst h
      simp [BigBot.pending_count]
    · have he : (5 == uid) = false := by
        rw [beq_eq_false_iff_ne]
        exact fun hx => h hx.symm
      simp [BigBot.pending_count, List.filter, he]

/-- Witness for C5: recording a high-impact bug-fix mutation with confidence
0.8 on an empty DNA, and the default weight at an unknown impact. -/
theorem C5_record_intelligent_mutation_fitness_witness :
    (BigBot.record_intelligent_mutation ⟨[], 0, 0, []⟩ "m1" "mod" "bug_fix"
        "t" "high" (4/5)).mutations =
      [] ++ [⟨"m1", "mod", "bug_fix", "t", "high", 4/5⟩]
    ∧ BigBot.dictGet BigBot.impact_weights "weird" 1 = 1 := by
  have h := C5_record_intelligent_mutation_fitness ⟨[], 0, 0, []⟩ "m1" "mod"
    "bug_fix" "t" "high" (4/5)
  obtain ⟨h1, _, _, _, _, _, _, _, _, _, _, _, hd⟩ := h
  exact ⟨h1, hd "weird" (by decide)⟩
